import Mathlib

/-!
Verification of the data reconciliation and derivation engine of the
clinical-trial dashboard (src/utils/data_processing.py, src/app.py,
src/components/screening_tab.py, src/components/cosl_performance_tab.py).

Tables are embedded shallowly: numeric cells are exact rationals,
a dataframe is a record of the columns the modelled function reads,
and Python exceptions are modelled with `Except`.
-/

namespace Dashboard

/-- A calendar month: year and month number (1..12). -/
structure YM where
  year : Nat
  month : Nat
deriving DecidableEq, Repr

/-- Linear index of a calendar month, used as chronological sort key. -/
def YM.idx (d : YM) : Nat := 12 * d.year + (d.month - 1)

/-- Month arithmetic used by `pd.date_range(freq=MS)`: the i-th month after `d`. -/
def YM.addMonths (d : YM) (i : Nat) : YM :=
  ⟨(d.idx + i) / 12, (d.idx + i) % 12 + 1⟩

/-- Zero-padding of the year to four digits, as CPython `strftime` `%Y` does. -/
def pad4 (n : Nat) : String :=
  let s := toString n
  if s.length < 4 then String.mk (List.replicate (4 - s.length) '0') ++ s else s

/-- Capitalised month abbreviations, as produced by `strftime('%b-%Y')`. -/
def monthAbbrevsDisplay : List String :=
  ["Jan", "Feb", "Mar", "Apr", "May", "Jun",
   "Jul", "Aug", "Sep", "Oct", "Nov", "Dec"]

/-- The `'%b-%Y'` label of a month, as in `month.strftime('%b-%Y')`. -/
def YM.label (d : YM) : String :=
  (monthAbbrevsDisplay.getD (d.month - 1) "") ++ "-" ++ pad4 d.year

/-- Lower-case month abbreviations recognised by `strptime` `%b`
(comparison is case-insensitive). -/
def monthAbbrevs : List String :=
  ["jan", "feb", "mar", "apr", "may", "jun",
   "jul", "aug", "sep", "oct", "nov", "dec"]

/-- Lower-case full month names recognised by `strptime` `%B`. -/
def monthFullNames : List String :=
  ["january", "february", "march", "april", "may", "june",
   "july", "august", "september", "october", "november", "december"]

/-- CPython `strptime` `%Y`: exactly four decimal digits. -/
def parseYear4 (s : String) : Option Nat :=
  if s.length = 4 ∧ s.toList.all Char.isDigit then s.toNat? else none

/-- A month token matched against a name list, case-insensitively;
returns the month number. -/
def parseNameMonth (names : List String) (tok : String) : Option Nat :=
  (names.findIdx? (fun n => n = tok.toLower)).map (· + 1)

/-- CPython `strptime` `%m`: one or two decimal digits in 1..12. -/
def parseNumMonth (tok : String) : Option Nat :=
  if (tok.length = 1 ∨ tok.length = 2) ∧ tok.toList.all Char.isDigit then
    match tok.toNat? with
    | some n => if 1 ≤ n ∧ n ≤ 12 then some n else none
    | none => none
  else none

/-- One `strptime(col, fmt)` attempt for a format of shape `token-%Y`:
the header must be the month token, a literal dash, and a 4-digit year. -/
def parseWith (pm : String → Option Nat) (s : String) : Option YM :=
  match s.splitOn "-" with
  | [tok, yr] =>
    match pm tok, parseYear4 yr with
    | some m, some y => some ⟨y, m⟩
    | _, _ => none
  | _ => none

/-- Month-header parsing of `extract_monthly_enrollment` /
`extract_monthly_screening_data`: the formats `'%b-%Y'`, `'%B-%Y'`, `'%m-%Y'`
are tried in order and the first successful parse wins. -/
def parse_month_header (s : String) : Option YM :=
  match parseWith (parseNameMonth monthAbbrevs) s with
  | some d => some d
  | none =>
    match parseWith (parseNameMonth monthFullNames) s with
    | some d => some d
    | none => parseWith parseNumMonth s

/-- Python `round` on an exact rational: round half to even. -/
def pyRound (q : ℚ) : ℤ :=
  let f := q.floor
  let r := q - f
  if r < 1/2 then f
  else if 1/2 < r then f + 1
  else if f % 2 = 0 then f else f + 1

/-- Python `round(x, 1)`: round half to even at one decimal place. -/
def round1 (q : ℚ) : ℚ := (pyRound (q * 10) : ℚ) / 10

/-- The screenings-needed expression, as written in
`generate_enrollment_projections` (data_processing.py:236) and in
`render_overview_metrics` (app.py:289):
`round(target / (1 - rate/100)) if rate < 100 else target * 5`. -/
def screenings_needed (target : ℤ) (rate : ℚ) : ℤ :=
  if rate < 100 then pyRound ((target : ℚ) / (1 - rate / 100)) else target * 5

/-- The enrollment-summary table as read by the calculators: presence of the
three numeric columns and their (already coerced) values. -/
structure EnrollFrame where
  hasScreened : Bool
  hasScreenFailed : Bool
  hasRandomized : Bool
  screened : List ℚ
  screenFailed : List ℚ
  randomized : List ℚ

/-- One row of the site-monthly table: its `Subject Status` cell and the
numeric value the row holds in any given column. -/
structure MonthlyRow where
  subjectStatus : String
  cell : String → ℚ

/-- The site-monthly table: header list, whether a `Subject Status` column
exists, which columns have numeric dtype, and the rows. -/
structure MonthlyTable where
  columns : List String
  hasSubjectStatus : Bool
  numeric : String → Bool
  rows : List MonthlyRow

/-- The `Subject Status` column (membership in `unique()` is membership here). -/
def statuses (m : MonthlyTable) : List String := m.rows.map (·.subjectStatus)

/-- Sum of the `Total` column over the rows whose `Subject Status` is `s`. -/
def sumStatusTotal (m : MonthlyTable) (s : String) : ℚ :=
  ((m.rows.filter (fun r => r.subjectStatus = s)).map (fun r => r.cell "Total")).sum

/-- The monthly-data branch of `calculate_screen_failure_rate`
(data_processing.py:199-214): accessing the `Subject Status` column raises
when it is absent; otherwise the `Total`-based ratio or the 50.0 default. -/
def monthly_path_rate (m : MonthlyTable) : Except String ℚ :=
  if m.hasSubjectStatus then
    if "Screen Failed" ∈ statuses m ∧ "Screened" ∈ statuses m then
      if "Total" ∈ m.columns then
        if 0 < sumStatusTotal m "Screened" then
          .ok (sumStatusTotal m "Screen Failed" / sumStatusTotal m "Screened" * 100)
        else .ok 50
      else .ok 50
    else .ok 50
  else .error "KeyError: Subject Status"

/-- `calculate_screen_failure_rate` (data_processing.py:175-214): override,
then the enrollment-table ratio when screened sums positive, then the
monthly-data branch (which ends in the 50.0 default). In the source the
positivity test is nested inside the column-presence test with fall-through
to the monthly branch; the flattened conjunction is equivalent. -/
def calculate_screen_failure_rate (e : EnrollFrame) (m : MonthlyTable)
    (sf_rate_override : ℚ) : Except String ℚ :=
  if 0 < sf_rate_override then .ok sf_rate_override
  else if e.hasScreenFailed = true ∧ e.hasScreened = true ∧ 0 < e.screened.sum then
    .ok (e.screenFailed.sum / e.screened.sum * 100)
  else monthly_path_rate m

/-- One row of the projection table built by `generate_enrollment_projections`. -/
structure ProjRow where
  month : String
  targetRandomizations : ℤ
  cumulativeTarget : ℚ
  screeningsNeeded : ℤ
deriving DecidableEq, Repr

/-- `generate_enrollment_projections` (data_processing.py:216-258), with the
current date made an explicit parameter: one row per calendar month from the
current month through the projection-end month. -/
def generate_enrollment_projections (e : EnrollFrame) (target : ℤ)
    (projEnd now : YM) (rate : ℚ) : List ProjRow :=
  let current : ℚ := if e.hasRandomized then e.randomized.sum else 0
  let sn := screenings_needed target rate
  (List.range (projEnd.idx + 1 - now.idx)).map (fun i =>
    { month := (now.addMonths i).label
      targetRandomizations := target
      cumulativeTarget := current + ((i : ℚ) + 1) * (target : ℚ)
      screeningsNeeded := sn })

/-- Comparison by a numeric sort key, as in Python `sorted(key=...)`. -/
def keyLe {α : Type} (key : α → Nat) (a b : α) : Prop := key a ≤ key b

instance {α : Type} (key : α → Nat) : DecidableRel (keyLe key) :=
  fun _ _ => Nat.decLe _ _

instance {α : Type} (key : α → Nat) : IsTotal α (keyLe key) :=
  ⟨fun _ _ => Nat.le_total _ _⟩

instance {α : Type} (key : α → Nat) : IsTrans α (keyLe key) :=
  ⟨fun _ _ _ h1 h2 => Nat.le_trans h1 h2⟩

/-- Python `sorted` with a numeric key: a stable sort, modelled by insertion
sort on the non-strict key order. -/
def sortByKey {α : Type} (key : α → Nat) (l : List α) : List α :=
  List.insertionSort (keyLe key) l

/-- The fixed metadata column names excluded from month-column candidacy
(data_processing.py:274-276 and screening_tab.py:259-261). -/
def month_excluded : List String :=
  ["Site ID", "Site Name", "PI First Name", "PI Last Name",
   "Status", "Country", "1st Screening", "1st Enrollment",
   "Subject Status", "Total"]

/-- Chronological sort key of a month column header (`date_mapping[x]`). -/
def colKey (c : String) : Nat := ((parse_month_header c).getD ⟨0, 0⟩).idx

/-- The date columns found by `extract_monthly_enrollment`: candidate headers
outside the metadata list that parse under one of the month formats, kept in
header order. -/
def enrollment_date_cols (t : MonthlyTable) : List String :=
  t.columns.filter (fun c => decide (c ∉ month_excluded) && (parse_month_header c).isSome)

/-- One output row of `extract_monthly_enrollment`. -/
structure EnrollMonthRow where
  month : String
  monthlyRandomized : ℚ
  cumulativeRandomized : ℚ
  month_dt : YM
deriving DecidableEq, Repr

/-- The per-month loop of `extract_monthly_enrollment`
(data_processing.py:300-313): one row per sorted month column, accumulating
the running cumulative total. -/
def buildEnrollRows (rand : List MonthlyRow) : List String → ℚ → List EnrollMonthRow
  | [], _ => []
  | c :: cs, acc =>
    let mt := (rand.map (fun r => r.cell c)).sum
    { month := c, monthlyRandomized := mt, cumulativeRandomized := acc + mt,
      month_dt := (parse_month_header c).getD ⟨0, 0⟩ } :: buildEnrollRows rand cs (acc + mt)

/-- `extract_monthly_enrollment` (data_processing.py:260-315): date-column
discovery, chronological sorting, the Randomized row slice (accessing the
`Subject Status` column raises when it is absent) and the cumulative loop. -/
def extract_monthly_enrollment (t : MonthlyTable) :
    Except String (Option (List EnrollMonthRow)) :=
  if enrollment_date_cols t = [] then .ok none
  else if t.hasSubjectStatus = false then .error "KeyError: Subject Status"
  else
    .ok (some (buildEnrollRows
      (t.rows.filter (fun r => r.subjectStatus = "Randomized"))
      (sortByKey colKey (enrollment_date_cols t)) 0))

/-- A monthly table whose month headers appear out of order (Feb before Jan)
with one Randomized row. -/
def monthlyJanFeb : MonthlyTable :=
  ⟨["Subject Status", "Feb-2025", "Jan-2025"], true, fun _ => true,
   [⟨"Randomized", fun c => if c = "Jan-2025" then 3 else if c = "Feb-2025" then 4 else 0⟩]⟩

/-- The extraction result for `monthlyJanFeb`: chronological order and
running cumulative totals. -/
def out5 : List EnrollMonthRow :=
  [⟨"Jan-2025", 3, 3, ⟨2025, 1⟩⟩, ⟨"Feb-2025", 4, 7, ⟨2025, 2⟩⟩]

/-- An enrollment table whose Screened column sums to 0 while Screen Failed
sums to 5. -/
def enrollZeroScreened : EnrollFrame :=
  ⟨true, true, false, [0], [5], []⟩

/-- A monthly table with a `Subject Status` column but no rows. -/
def monthlyEmpty : MonthlyTable :=
  ⟨[], true, fun _ => false, []⟩

/-- An enrollment table whose Randomized column sums to 100. -/
def enrollHundred : EnrollFrame :=
  ⟨false, false, true, [], [], [100]⟩

/-- A Python value that may be a string or a number. -/
inductive PyVal where
  | s (v : String)
  | i (v : Int)
deriving DecidableEq, Repr

/-- Python `str()` on such a value. -/
def pyStr : PyVal → String
  | .s v => v
  | .i v => toString v

/-- One row of the per-site activation view built by
`extract_activation_data` (app.py:227-244): its Site Number is already a
string (`str(row['Site ID'])`), its Date of Activation starts unset. -/
structure ActRow where
  siteNumber : String
  activationDate : Option String
deriving DecidableEq, Repr

/-- One row of the processed site-master table: `Site Number` may be numeric
or string; `Site Activated Date` may be missing. -/
structure SiteRow where
  siteNumber : PyVal
  siteActivatedDate : Option String
deriving DecidableEq, Repr

/-- `update_activation_dates` (app.py:247-254): for each site-master row,
stringify its site number; when some activation row matches that string and
the activated date is non-null, write the date into every matching row. -/
def update_activation_dates (act : List ActRow) (site : List SiteRow) : List ActRow :=
  site.foldl (fun acc row =>
    if acc.any (fun a => decide (a.siteNumber = pyStr row.siteNumber)) = true ∧
        row.siteActivatedDate.isSome = true then
      acc.map (fun a =>
        if a.siteNumber = pyStr row.siteNumber then
          { a with activationDate := row.siteActivatedDate }
        else a)
    else acc) act

/-- An activation view holding the single site "007" (string, with leading
zeros), no activation date yet. -/
def act007 : List ActRow := [⟨"007", none⟩]

/-- A site-master table holding the single site 7 (numeric) with an
activation date. -/
def site7 : List SiteRow := [⟨.i 7, some "01-Jan-2025"⟩]

/-- Python `in` on strings: substring containment. -/
def strContains (s pat : String) : Bool :=
  pat.isEmpty || (s.splitOn pat).length != 1

/-- The status mapping built by `extract_monthly_screening_data`. -/
structure StatusMapping where
  screened : Option String
  screenFailed : Option String
  randomized : Option String
deriving DecidableEq, Repr

/-- Number of canonical statuses resolved (`len(status_mapping)`). -/
def smSize (m : StatusMapping) : Nat :=
  (if m.screened.isSome then 1 else 0) +
  (if m.screenFailed.isSome then 1 else 0) +
  (if m.randomized.isSome then 1 else 0)

/-- First matching pass (screening_tab.py:297-302): each canonical label
maps to the first actual status label containing it, case-insensitively. -/
def pass1 (actuals : List String) : StatusMapping :=
  ⟨actuals.find? (fun a => strContains a.toLower "screened"),
   actuals.find? (fun a => strContains a.toLower "screen failed"),
   actuals.find? (fun a => strContains a.toLower "randomized")⟩

/-- One step of the second-pass heuristic (screening_tab.py:306-313): a
label with "screen" but not "fail" maps to Screened; else one with "fail"
(or "screen fail") maps to Screen Failed; else one with "random" or
"enroll" maps to Randomized. The loop has no break, so later labels
overwrite earlier assignments. -/
def pass2step (m : StatusMapping) (status : String) : StatusMapping :=
  if strContains status.toLower "screen" && !strContains status.toLower "fail" then
    { m with screened := some status }
  else if strContains status.toLower "fail" || strContains status.toLower "screen fail" then
    { m with screenFailed := some status }
  else if strContains status.toLower "random" || strContains status.toLower "enroll" then
    { m with randomized := some status }
  else m

/-- The full status-label resolution: the first pass, then, when it resolved
fewer than two statuses, the second-pass heuristic over all labels. -/
def statusMapping (actuals : List String) : StatusMapping :=
  let m1 := pass1 actuals
  if smSize m1 < 2 then actuals.foldl pass2step m1 else m1

/-- `pandas.unique`: first occurrences, in encounter order. -/
def uniquesAux : List String → List String → List String
  | [], _ => []
  | a :: l, seen => if a ∈ seen then uniquesAux l seen else a :: uniquesAux l (a :: seen)

/-- The unique Subject Status values of a column. -/
def uniques (l : List String) : List String := uniquesAux l []

/-- One output row of `extract_monthly_screening_data`. -/
structure ScrRow where
  month : String
  screened : ℚ
  screenFailed : ℚ
  randomized : ℚ
  sfRate : ℚ
  month_dt : YM
deriving DecidableEq, Repr

/-- Candidate month columns: headers outside the metadata list. -/
def candidate_cols (t : MonthlyTable) : List String :=
  t.columns.filter (fun c => decide (c ∉ month_excluded))

/-- Candidates that parse as dates, in header order (screening tab). -/
def screening_date_cols (t : MonthlyTable) : List String :=
  (candidate_cols t).filter (fun c => (parse_month_header c).isSome)

/-- The synthetic stamp of the i-th fallback column:
`pd.Timestamp(year=2020, month=(i % 12) + 1, day=1)`. -/
def synth_dt (i : Nat) : YM := ⟨2020, i % 12 + 1⟩

/-- Sum of column `c` over the rows whose Subject Status equals `lab`. -/
def sumStatus (t : MonthlyTable) (lab c : String) : ℚ :=
  ((t.rows.filter (fun r => r.subjectStatus = lab)).map (fun r => r.cell c)).sum

/-- The month columns with their stamps (screening_tab.py:255-283): parsed
date columns if any; otherwise the numeric-dtype candidates with synthetic
sequential stamps; otherwise nothing. -/
def screening_col_map (t : MonthlyTable) : Option (List (String × YM)) :=
  if screening_date_cols t = [] then
    if (candidate_cols t).filter (fun c => t.numeric c) = [] then none
    else some (((candidate_cols t).filter (fun c => t.numeric c)).enum.map
      (fun p => (p.2, synth_dt p.1)))
  else some ((screening_date_cols t).map
    (fun c => (c, (parse_month_header c).getD ⟨0, 0⟩)))

/-- `extract_monthly_screening_data` (screening_tab.py:229-359): required
`Subject Status` column, month-column discovery with the numeric fallback,
chronological sort, status-label resolution (needs both Screened and Screen
Failed), the per-month loop keeping only months with activity, and the final
sort by month stamp. Any failure returns no data. -/
def extract_monthly_screening_data (t : MonthlyTable) : Option (List ScrRow) :=
  if t.hasSubjectStatus = false then none
  else
    match screening_col_map t with
    | none => none
    | some cm =>
      let m := statusMapping (uniques (t.rows.map (·.subjectStatus)))
      match m.screened, m.screenFailed with
      | some sLab, some fLab =>
        let rows := (sortByKey (fun p => p.2.idx) cm).filterMap (fun p =>
          if t.numeric p.1 = false then none
          else
            let scr := sumStatus t sLab p.1
            let fl := sumStatus t fLab p.1
            let rnd := match m.randomized with
              | some rLab => sumStatus t rLab p.1
              | none => 0
            if 0 < scr ∨ 0 < fl then
              some { month := p.1, screened := scr, screenFailed := fl,
                     randomized := rnd,
                     sfRate := if 0 < scr then round1 (fl / scr * 100) else 0,
                     month_dt := p.2 }
            else none)
        if rows = [] then none
        else some (sortByKey (fun r => r.month_dt.idx) rows)
      | _, _ => none

/-- A monthly table whose only Subject Status label matches no canonical
status. -/
def monthlyOther : MonthlyTable :=
  ⟨["Subject Status"], true, fun _ => false, [⟨"Other", fun _ => 0⟩]⟩

/-- A monthly table whose single candidate column "M1" parses under no month
format but has numeric dtype. -/
def monthlyNumericM1 : MonthlyTable :=
  ⟨["Subject Status", "M1"], true, fun c => decide (c = "M1"),
   [⟨"Screened", fun c => if c = "M1" then 10 else 0⟩,
    ⟨"Screen Failed", fun c => if c = "M1" then 2 else 0⟩]⟩

/-- The screening extraction of `monthlyNumericM1`: one synthetic-stamped
row. -/
def outM1 : List ScrRow := [⟨"M1", 10, 2, 0, 20, ⟨2020, 1⟩⟩]

/-- A numeric-or-not-or-missing cell of a raw uploaded table. -/
inductive Cell where
  | num (q : ℚ)
  | nonnum
  | na
deriving DecidableEq, Repr

/-- `pd.to_numeric(errors='coerce')` followed by `fillna(0)` on one cell. -/
def coerceCell : Cell → Cell
  | .num q => .num q
  | _ => .num 0

/-- A raw uploaded table: association list of column name to cell values. -/
structure RawFrame where
  cols : List (String × List Cell)
deriving DecidableEq, Repr

/-- Column membership (`c in df.columns`). -/
def RawFrame.has (f : RawFrame) (c : String) : Bool :=
  f.cols.any (fun p => p.1 = c)

/-- Column access (`df[c]`), first match. -/
def lookupCol (f : RawFrame) (c : String) : Option (List Cell) :=
  (f.cols.find? (fun p => p.1 = c)).map (·.2)

/-- Required columns of the enrollment summary (data_processing.py:27). -/
def enroll_req_cols : List String :=
  ["Site ID", "Site Name", "Country", "Screened", "Screen Failed", "Randomized"]

/-- The ordered alternate names per required column
(data_processing.py:31-38). -/
def enroll_alt_cols : String → List String
  | "Site ID" => ["SiteID", "Site Number", "Site"]
  | "Site Name" => ["Site", "Center Name", "Center"]
  | "Country" => ["Region", "Nation", "Location"]
  | "Screened" => ["Total Screened", "Screening", "Screenings"]
  | "Screen Failed" => ["Screen Fails", "Failed", "Failed Screening"]
  | "Randomized" => ["Enrolled", "Randomizations", "Total Randomized"]
  | _ => []

/-- The numeric columns coerced and zero-filled (data_processing.py:48). -/
def enroll_numeric_cols : List String := ["Screened", "Screen Failed", "Randomized"]

/-- Column-name trimming (`col.strip()`, data_processing.py:24). -/
def stripCols (f : RawFrame) : RawFrame :=
  ⟨f.cols.map (fun p => (p.1.trim, p.2))⟩

/-- The alternate-name fill loop (data_processing.py:40-45): for each still
missing required column, copy the first present alternate under the
canonical name (new columns are appended). -/
def fillMissing : List String → RawFrame → RawFrame
  | [], acc => acc
  | c :: ms, acc =>
    match (enroll_alt_cols c).find? (fun a => acc.has a) with
    | some a => fillMissing ms ⟨acc.cols ++ [(c, (lookupCol acc a).getD [])]⟩
    | none => fillMissing ms acc

/-- The numeric coercion pass (data_processing.py:47-50). -/
def coerceNumericCols (f : RawFrame) : RawFrame :=
  ⟨f.cols.map (fun p =>
    if p.1 ∈ enroll_numeric_cols then (p.1, p.2.map coerceCell) else p)⟩

/-- `process_enrollment_data` (data_processing.py:13-52): strip headers,
compute the missing required columns, fill them from alternates, coerce the
numeric columns. Total: it never raises. -/
def process_enrollment_data (f : RawFrame) : RawFrame :=
  coerceNumericCols (fillMissing
    (enroll_req_cols.filter (fun c => !((stripCols f).has c)))
    (stripCols f))

/-- An empty enrollment frame (no columns at all). -/
def enrollEmptyFrame : EnrollFrame := ⟨false, false, false, [], [], []⟩

/-- A monthly table with no `Subject Status` column. -/
def monthlyNoSubjectStatus : MonthlyTable := ⟨[], false, fun _ => false, []⟩

/-- A raw frame holding only a Site ID column. -/
def rawFrameNoCounts : RawFrame := ⟨[("Site ID", [.num 1])]⟩

end Dashboard

namespace Dashboard

/-- Claim C2: for every monthly target t and rate r the screenings-needed
value is `round(t / (1 - r/100))` when `r < 100` and `t * 5` otherwise, with
the four instances from the spec. -/
theorem screenings_needed_formula :
    (∀ (t : ℤ) (r : ℚ),
      screenings_needed t r =
        if r < 100 then pyRound ((t : ℚ) / (1 - r / 100)) else t * 5) ∧
    screenings_needed 10 50 = 20 ∧
    screenings_needed 10 0 = 10 ∧
    screenings_needed 10 100 = 50 ∧
    screenings_needed 10 150 = 50 := by
  refine ⟨fun t r => rfl, ?_, ?_, ?_, ?_⟩ <;> with_unfolding_all decide

/-- Claim C1: `calculate_screen_failure_rate` resolves the rate with this
exact priority: a positive caller override is returned unchanged; otherwise
the enrollment-table percentage `100 * screen-failed / screened` when both
columns exist and summed Screened is positive; otherwise the same percentage
from the monthly table's `Total` column when both status labels occur and the
summed screened Total is positive; otherwise the constant 50.0. The two ratio
paths are alternatives and are never combined. -/
theorem screen_failure_rate_resolution_order (e : EnrollFrame) (m : MonthlyTable)
    (ov : ℚ) (h : m.hasSubjectStatus = true) :
    calculate_screen_failure_rate e m ov =
      if 0 < ov then .ok ov
      else if e.hasScreenFailed = true ∧ e.hasScreened = true ∧ 0 < e.screened.sum then
        .ok (100 * e.screenFailed.sum / e.screened.sum)
      else if ("Screen Failed" ∈ statuses m ∧ "Screened" ∈ statuses m) ∧
              "Total" ∈ m.columns ∧ 0 < sumStatusTotal m "Screened" then
        .ok (100 * sumStatusTotal m "Screen Failed" / sumStatusTotal m "Screened")
      else .ok 50 := by
  unfold calculate_screen_failure_rate monthly_path_rate
  rw [h]
  by_cases h1 : 0 < ov
  · simp [h1]
  · by_cases h2 : e.hasScreenFailed = true ∧ e.hasScreened = true ∧ 0 < e.screened.sum
    · simp [h1, h2, div_mul_eq_mul_div, mul_comm]
    · by_cases h3 : "Screen Failed" ∈ statuses m ∧ "Screened" ∈ statuses m
      · by_cases h4 : "Total" ∈ m.columns
        · by_cases h5 : 0 < sumStatusTotal m "Screened"
          · simp [h1, h2, h3, h4, h5, div_mul_eq_mul_div, mul_comm]
          · simp [h1, h2, h3, h4, h5]
        · simp [h1, h2, h3, h4]
      · simp [h1, h2, h3]

/-- Witness for C1: with a positive override of 25 the function returns it. -/
theorem screen_failure_rate_resolution_order_witness :
    calculate_screen_failure_rate enrollZeroScreened monthlyEmpty 25 = .ok 25 := by
  rw [screen_failure_rate_resolution_order enrollZeroScreened monthlyEmpty 25 rfl]
  with_unfolding_all rfl

/-- Counterexample for C4: with summed Screened equal to 0 (and Screen Failed
5) and an empty monthly table, the computed overall rate is 50.0, not 0. -/
theorem screened_zero_rate_is_fifty :
    calculate_screen_failure_rate enrollZeroScreened monthlyEmpty 0 = .ok 50 ∧
    calculate_screen_failure_rate enrollZeroScreened monthlyEmpty 0 ≠ .ok 0 := by
  constructor
  · with_unfolding_all rfl
  · intro hcon
    have h50 : calculate_screen_failure_rate enrollZeroScreened monthlyEmpty 0 =
        Except.ok 50 := by with_unfolding_all rfl
    rw [h50] at hcon
    exact absurd (Except.ok.inj hcon) (by norm_num)

/-- Claim C4 (amended): for every enrollment table whose summed Screened
count is 0, the enrollment-ratio path is skipped without any division, so no
exception occurs and the result does not depend on the Screen Failed values:
the rate is the positive override if given, and otherwise the monthly-data
branch value (ending in the 50.0 default) — not 0 in general. -/
theorem screened_zero_skips_enrollment_path (e : EnrollFrame) (m : MonthlyTable)
    (ov : ℚ) (h : e.screened.sum = 0) :
    calculate_screen_failure_rate e m ov =
      if 0 < ov then .ok ov else monthly_path_rate m := by
  unfold calculate_screen_failure_rate
  rw [h]
  simp

/-- Witness for the amended C4 at a concrete zero-screened table. -/
theorem screened_zero_skips_enrollment_path_witness :
    calculate_screen_failure_rate enrollZeroScreened monthlyEmpty 0 = .ok 50 := by
  rw [screened_zero_skips_enrollment_path enrollZeroScreened monthlyEmpty 0
    (by with_unfolding_all rfl)]
  with_unfolding_all rfl

/-- Claim C3: the projection table has one row per calendar month from the
current month through the projection-end month inclusive; row i has
cumulative target `current + (i+1) * target`, constant per-row target, and a
screenings-needed value computed once and identical in every row; with
current cumulative 100, target 10 and 3 months, the cumulative targets are
110, 120, 130. -/
theorem enrollment_projections_shape :
    (∀ (e : EnrollFrame) (target : ℤ) (projEnd now : YM) (rate : ℚ),
      (generate_enrollment_projections e target projEnd now rate).length =
        projEnd.idx + 1 - now.idx ∧
      (∀ i (hi : i < (generate_enrollment_projections e target projEnd now rate).length),
        ((generate_enrollment_projections e target projEnd now rate).get ⟨i, hi⟩) =
          { month := (now.addMonths i).label
            targetRandomizations := target
            cumulativeTarget :=
              (if e.hasRandomized then e.randomized.sum else 0) + ((i : ℚ) + 1) * (target : ℚ)
            screeningsNeeded := screenings_needed target rate })) ∧
    (generate_enrollment_projections enrollHundred 10 ⟨2025, 3⟩ ⟨2025, 1⟩ 50).map
      (·.cumulativeTarget) = [110, 120, 130] := by
  constructor
  · intro e target projEnd now rate
    constructor
    · simp [generate_enrollment_projections]
    · intro i hi
      have hi' : i < projEnd.idx + 1 - now.idx := by
        simpa [generate_enrollment_projections] using hi
      simp [generate_enrollment_projections, List.get_eq_getElem]
  · with_unfolding_all decide

/-- Witness for C3: the first projected row at the concrete input. -/
theorem enrollment_projections_shape_witness :
    (generate_enrollment_projections enrollHundred 10 ⟨2025, 3⟩ ⟨2025, 1⟩ 50).get
      ⟨0, by with_unfolding_all decide⟩ =
      { month := "Jan-2025", targetRandomizations := 10,
        cumulativeTarget := 110, screeningsNeeded := 20 } := by
  have h := (enrollment_projections_shape.1 enrollHundred 10 ⟨2025, 3⟩ ⟨2025, 1⟩ 50).2 0
    (by with_unfolding_all decide)
  rw [h]
  with_unfolding_all decide

/-- The insertion sort by key produces a key-nondecreasing list. -/
theorem sortByKey_pairwise {α : Type} (key : α → Nat) (l : List α) :
    (sortByKey key l).Pairwise (keyLe key) :=
  List.sorted_insertionSort (keyLe key) l

/-- The month stamps of the built rows are the parsed dates of the columns,
in column order. -/
theorem buildEnrollRows_map_dt (rand : List MonthlyRow) :
    ∀ (cs : List String) (acc : ℚ),
      (buildEnrollRows rand cs acc).map (·.month_dt) =
        cs.map (fun c => (parse_month_header c).getD ⟨0, 0⟩)
  | [], _ => rfl
  | c :: cs, acc => by
    simp [buildEnrollRows, buildEnrollRows_map_dt rand cs]

/-- Inversion of a successful extraction: the output is the cumulative loop
over the sorted date columns, started at 0. -/
theorem extract_monthly_enrollment_ok (t : MonthlyTable) (out : List EnrollMonthRow)
    (h : extract_monthly_enrollment t = .ok (some out)) :
    out = buildEnrollRows
      (t.rows.filter (fun r => r.subjectStatus = "Randomized"))
      (sortByKey colKey (enrollment_date_cols t)) 0 := by
  unfold extract_monthly_enrollment at h
  by_cases hd : enrollment_date_cols t = []
  · simp [hd] at h
  · by_cases hs : t.hasSubjectStatus = false
    · simp [hd, hs] at h
    · rw [if_neg hd, if_neg hs] at h
      exact (Option.some.inj (Except.ok.inj h)).symm

set_option maxRecDepth 100000 in
/-- Claim C5: the three month-header formats are tried in order with the
first successful parse winning; `Jan-2025`, `January-2025` and `01-2025`
each resolve to January 2025, before their February counterparts; and the
rows of a successful monthly extraction are ordered ascending by the parsed
calendar date. -/
theorem month_header_parsing_and_order :
    parse_month_header "Jan-2025" = some ⟨2025, 1⟩ ∧
    parse_month_header "January-2025" = some ⟨2025, 1⟩ ∧
    parse_month_header "01-2025" = some ⟨2025, 1⟩ ∧
    parse_month_header "Feb-2025" = some ⟨2025, 2⟩ ∧
    parse_month_header "February-2025" = some ⟨2025, 2⟩ ∧
    parse_month_header "02-2025" = some ⟨2025, 2⟩ ∧
    YM.idx ⟨2025, 1⟩ < YM.idx ⟨2025, 2⟩ ∧
    (∀ s d, parseWith (parseNameMonth monthAbbrevs) s = some d →
      parse_month_header s = some d) ∧
    (∀ s d, parseWith (parseNameMonth monthAbbrevs) s = none →
      parseWith (parseNameMonth monthFullNames) s = some d →
      parse_month_header s = some d) ∧
    (∀ t out, extract_monthly_enrollment t = .ok (some out) →
      (out.map (·.month_dt)).Pairwise (fun a b => a.idx ≤ b.idx)) := by
  refine ⟨?_, ?_, ?_, ?_, ?_, ?_, ?_, ?_, ?_, ?_⟩
  · with_unfolding_all decide
  · with_unfolding_all decide
  · with_unfolding_all decide
  · with_unfolding_all decide
  · with_unfolding_all decide
  · with_unfolding_all decide
  · with_unfolding_all decide
  · intro s d h
    simp [parse_month_header, h]
  · intro s d h1 h2
    simp [parse_month_header, h1, h2]
  · intro t out h
    rw [extract_monthly_enrollment_ok t out h, buildEnrollRows_map_dt]
    exact List.Pairwise.map _ (fun a b hab => hab)
      (sortByKey_pairwise colKey (enrollment_date_cols t))

/-- Witness for C5: the out-of-order concrete table extracts in
chronological order. -/
theorem month_header_parsing_and_order_witness :
    (out5.map (·.month_dt)).Pairwise (fun a b => a.idx ≤ b.idx) :=
  month_header_parsing_and_order.2.2.2.2.2.2.2.2.2 monthlyJanFeb out5
    (by with_unfolding_all rfl)

/-- The cumulative field of the k-th built row is the starting value plus the
sum of the monthly fields of rows 0..k. -/
theorem buildEnrollRows_get_cum (rand : List MonthlyRow) :
    ∀ (cs : List String) (acc : ℚ) (k : Nat)
      (hk : k < (buildEnrollRows rand cs acc).length),
      ((buildEnrollRows rand cs acc).get ⟨k, hk⟩).cumulativeRandomized =
        acc + (((buildEnrollRows rand cs acc).take (k + 1)).map
          (·.monthlyRandomized)).sum := by
  intro cs
  induction cs with
  | nil => intro acc k hk; simp [buildEnrollRows] at hk
  | cons c cs ih =>
    intro acc k hk
    cases k with
    | zero => simp [buildEnrollRows]
    | succ k =>
      have hk' : k < (buildEnrollRows rand cs
          (acc + (rand.map (fun r => r.cell c)).sum)).length := by
        simpa [buildEnrollRows] using hk
      have := ih (acc + (rand.map (fun r => r.cell c)).sum) k hk'
      simp only [buildEnrollRows, List.get_eq_getElem, List.getElem_cons_succ,
        List.take_succ_cons, List.map_cons, List.sum_cons] at this ⊢
      rw [this]
      ring

/-- With nonnegative monthly values, every built row's cumulative is at least
the starting value, and the cumulative column is nondecreasing. -/
theorem buildEnrollRows_nondecreasing (rand : List MonthlyRow) :
    ∀ (cs : List String) (acc : ℚ),
      (∀ r ∈ buildEnrollRows rand cs acc, 0 ≤ r.monthlyRandomized) →
      (∀ r ∈ buildEnrollRows rand cs acc, acc ≤ r.cumulativeRandomized) ∧
      (buildEnrollRows rand cs acc).Pairwise
        (fun a b => a.cumulativeRandomized ≤ b.cumulativeRandomized) := by
  intro cs
  induction cs with
  | nil =>
    intro acc _
    exact ⟨by simp [buildEnrollRows], by simp [buildEnrollRows]⟩
  | cons c cs ih =>
    intro acc h
    simp only [buildEnrollRows] at h ⊢
    have hmt : 0 ≤ (rand.map (fun r => r.cell c)).sum := by
      have := h _ (List.mem_cons_self _ _)
      simpa using this
    have hrest := ih (acc + (rand.map (fun r => r.cell c)).sum)
      (fun r hr => h r (List.mem_cons_of_mem _ hr))
    constructor
    · intro r hr
      rcases List.mem_cons.mp hr with rfl | hr'
      · simp only []
        linarith
      · have := hrest.1 r hr'
        linarith
    · refine List.pairwise_cons.mpr ⟨?_, hrest.2⟩
      intro r hr
      have := hrest.1 r hr
      simp only []
      linarith

/-- Claim C10: in a successful monthly extraction, each row's Cumulative
Randomized equals the running sum of Monthly Randomized over rows 0..k in
the table's chronological order, and the cumulative column is nondecreasing
whenever all monthly counts are nonnegative. -/
theorem cumulative_is_running_sum (t : MonthlyTable) (out : List EnrollMonthRow)
    (h : extract_monthly_enrollment t = .ok (some out)) :
    (∀ (k : Nat) (hk : k < out.length),
      (out.get ⟨k, hk⟩).cumulativeRandomized =
        ((out.take (k + 1)).map (·.monthlyRandomized)).sum) ∧
    ((∀ r ∈ out, 0 ≤ r.monthlyRandomized) →
      out.Pairwise (fun a b => a.cumulativeRandomized ≤ b.cumulativeRandomized)) := by
  rw [extract_monthly_enrollment_ok t out h]
  constructor
  · intro k hk
    have := buildEnrollRows_get_cum
      (t.rows.filter (fun r => r.subjectStatus = "Randomized"))
      (sortByKey colKey (enrollment_date_cols t)) 0 k hk
    simpa using this
  · intro hnn
    exact (buildEnrollRows_nondecreasing _ _ 0 hnn).2

/-- Witness for C10: second row of the concrete extraction equals the sum of
the first two monthly values. -/
theorem cumulative_is_running_sum_witness :
    (out5.get ⟨1, by with_unfolding_all decide⟩).cumulativeRandomized =
      ((out5.take 2).map (·.monthlyRandomized)).sum :=
  (cumulative_is_running_sum monthlyJanFeb out5 (by with_unfolding_all rfl)).1 1
    (by with_unfolding_all decide)

/-- Counterexample for C6: the site stored as string "007" in the activation
view and as numeric 7 in the site master do not match — `str(7)` is "7" —
and the activation date is not backfilled. -/
theorem leading_zero_site_number_mismatch :
    pyStr (.i 7) = "7" ∧ ("7" : String) ≠ "007" ∧
    update_activation_dates act007 site7 = [⟨"007", none⟩] := by
  refine ⟨rfl, by decide, by with_unfolding_all rfl⟩

/-- Claim C6 (amended): site-number matching when backfilling activation
dates is by equality of canonical string renderings: a site-master row's
date is written exactly into the activation rows whose (string) Site Number
equals `str()` of the master's site number. Numeric 7 canonicalises to "7",
so it matches a row numbered "7" but not one numbered "007". -/
theorem activation_backfill_string_match (act : List ActRow) (v : PyVal) (d : String) :
    update_activation_dates act [⟨v, some d⟩] =
      act.map (fun a =>
        if a.siteNumber = pyStr v then { a with activationDate := some d } else a) := by
  unfold update_activation_dates
  simp only [List.foldl_cons, List.foldl_nil, Option.isSome_some, and_true]
  by_cases h : act.any (fun a => decide (a.siteNumber = pyStr v)) = true
  · rw [if_pos h]
  · rw [if_neg h]
    have hnone : ∀ a ∈ act, ¬(a.siteNumber = pyStr v) := by
      intro a ha hc
      exact h (List.any_eq_true.mpr ⟨a, ha, by simp [hc]⟩)
    have : act.map (fun a =>
        if a.siteNumber = pyStr v then { a with activationDate := some d } else a) =
        act.map id := by
      apply List.map_congr_left
      intro a ha
      rw [if_neg (hnone a ha)]
      rfl
    rw [this, List.map_id]

/-- Claim C7: in the second-pass substring heuristic, every label containing
"fail" is assigned to Screen Failed and never to Screened, even when it also
contains "screen"; and whenever fewer than two of the three canonical
statuses resolve, the monthly screening extraction returns no data rather
than a partial result. -/
theorem status_label_heuristics :
    (∀ (m : StatusMapping) (s : String), strContains s.toLower "fail" = true →
      (pass2step m s).screenFailed = some s ∧
      (pass2step m s).screened = m.screened) ∧
    (∀ t : MonthlyTable,
      smSize (statusMapping (uniques (t.rows.map (·.subjectStatus)))) < 2 →
      extract_monthly_screening_data t = none) := by
  constructor
  · intro m s hf
    unfold pass2step
    rw [hf]
    simp
  · intro t hlt
    unfold extract_monthly_screening_data
    by_cases hss : t.hasSubjectStatus = false
    · rw [if_pos hss]
    · rw [if_neg hss]
      rcases hcm : screening_col_map t with _ | cm
      · rfl
      · rcases h1 : (statusMapping (uniques (t.rows.map (·.subjectStatus)))).screened
          with _ | sLab
        · simp [h1]
        · rcases h2 : (statusMapping (uniques (t.rows.map (·.subjectStatus)))).screenFailed
            with _ | fLab
          · simp [h1, h2]
          · exfalso
            unfold smSize at hlt
            rw [h1, h2] at hlt
            simp only [Option.isSome_some, if_true] at hlt
            omega

/-- Witness for C7: "Screen Failure" contains both "screen" and "fail" and
is classified as Screen Failed; a table whose only label is "Other" resolves
no status and extracts to no data. -/
theorem status_label_heuristics_witness :
    (pass2step ⟨none, none, none⟩ "Screen Failure").screenFailed =
      some "Screen Failure" ∧
    extract_monthly_screening_data monthlyOther = none := by
  constructor
  · exact (status_label_heuristics.1 ⟨none, none, none⟩ "Screen Failure"
      (by with_unfolding_all rfl)).1
  · exact status_label_heuristics.2 monthlyOther (by with_unfolding_all decide)

/-- Counterexample for C8: a monthly table with zero date-parsing candidate
columns and an all-numeric candidate column, on which the wide-month
extraction `extract_monthly_enrollment` returns no data instead of falling
back and producing output. -/
theorem no_date_cols_enrollment_returns_none :
    enrollment_date_cols monthlyNumericM1 = [] ∧
    (candidate_cols monthlyNumericM1).filter
      (fun c => monthlyNumericM1.numeric c) = ["M1"] ∧
    extract_monthly_enrollment monthlyNumericM1 = .ok none := by
  refine ⟨?_, ?_, ?_⟩ <;> with_unfolding_all rfl

/-- Claim C8 (amended): only the screening-tab extraction has the fallback.
When zero candidate columns parse as dates, `extract_monthly_enrollment`
returns no data, while `extract_monthly_screening_data` treats the
numeric-dtype candidate columns as an ordered month sequence with synthetic
sequential stamps (year 2020, month i % 12 + 1) and produces output from
them, as on the concrete table `monthlyNumericM1`. -/
theorem no_date_cols_fallback_behavior :
    (∀ t : MonthlyTable, enrollment_date_cols t = [] →
      extract_monthly_enrollment t = .ok none) ∧
    extract_monthly_screening_data monthlyNumericM1 = some outM1 := by
  constructor
  · intro t h
    unfold extract_monthly_enrollment
    rw [if_pos h]
  · with_unfolding_all rfl

/-- Witness for the amended C8 at the concrete numeric-column table. -/
theorem no_date_cols_fallback_behavior_witness :
    extract_monthly_enrollment monthlyNumericM1 = .ok none :=
  no_date_cols_fallback_behavior.1 monthlyNumericM1 (by with_unfolding_all rfl)

/-- Counterexample for C9: with an enrollment table lacking the count
columns and a monthly table lacking `Subject Status` (all alternates also
absent after reconciliation), the derivation raises a KeyError instead of
degrading. -/
theorem missing_subject_status_raises :
    calculate_screen_failure_rate enrollEmptyFrame monthlyNoSubjectStatus 0 =
      .error "KeyError: Subject Status" := by
  with_unfolding_all rfl

/-- Column membership of a concatenated frame. -/
theorem RawFrame.has_append (l1 l2 : List (String × List Cell)) (x : String) :
    RawFrame.has ⟨l1 ++ l2⟩ x = (RawFrame.has ⟨l1⟩ x || RawFrame.has ⟨l2⟩ x) := by
  simp [RawFrame.has, List.any_append]

/-- No required column name occurs in any required column's alternate
list. -/
theorem req_cols_not_alternates :
    ∀ c ∈ enroll_req_cols, ∀ x ∈ enroll_req_cols, x ∉ enroll_alt_cols c := by
  decide

/-- The fill loop never creates a column whose name and alternates are all
absent: processing other missing names appends only required names, and
required names are not alternates. -/
theorem fillMissing_keeps_absent (c : String)
    (hdisj : ∀ x ∈ enroll_req_cols, x ∉ enroll_alt_cols c) :
    ∀ (ms : List String) (acc : RawFrame),
      (∀ x ∈ ms, x ∈ enroll_req_cols) →
      acc.has c = false →
      (∀ a ∈ enroll_alt_cols c, acc.has a = false) →
      (fillMissing ms acc).has c = false := by
  intro ms
  induction ms with
  | nil => intro acc _ hc _; simpa [fillMissing] using hc
  | cons c' ms ih =>
    intro acc hms hc halt
    have hc'req : c' ∈ enroll_req_cols := hms c' (List.mem_cons_self _ _)
    unfold fillMissing
    cases hfind : (enroll_alt_cols c').find? (fun a => acc.has a) with
    | none => exact ih acc (fun x hx => hms x (List.mem_cons_of_mem _ hx)) hc halt
    | some a =>
      have hc'ne : c' ≠ c := by
        rintro rfl
        have hmem := List.mem_of_find?_eq_some hfind
        have hpred := List.find?_some hfind
        rw [halt a hmem] at hpred
        exact Bool.false_ne_true hpred
      apply ih _ (fun x hx => hms x (List.mem_cons_of_mem _ hx))
      · rw [RawFrame.has_append]
        have : RawFrame.has ⟨[(c', (lookupCol acc a).getD [])]⟩ c = false := by
          simp [RawFrame.has, hc'ne]
        rw [hc, this]
        rfl
      · intro a' ha'
        rw [RawFrame.has_append]
        have hne : c' ≠ a' := by
          intro h
          exact (hdisj c' hc'req) (h ▸ ha')
        have : RawFrame.has ⟨[(c', (lookupCol acc a).getD [])]⟩ a' = false := by
          simp [RawFrame.has, hne]
        rw [halt a' ha', this]
        rfl

/-- The numeric coercion pass changes no column names. -/
theorem coerceNumericCols_has (f : RawFrame) (x : String) :
    (coerceNumericCols f).has x = f.has x := by
  unfold coerceNumericCols RawFrame.has
  rw [List.any_map]
  congr 1
  funext p
  by_cases h : p.1 ∈ enroll_numeric_cols <;> simp [Function.comp, h]

/-- Claim C9 (amended): a required column absent with every listed alternate
also absent never makes `process_enrollment_data` raise — the column is
simply left absent; the values of the numeric count columns it outputs are
always numbers (non-numeric and missing cells coerced to 0); and
`calculate_screen_failure_rate` never raises when the monthly table has a
`Subject Status` column (it raises a KeyError exactly when that reconciled
column is absent and neither the override nor the enrollment path applies). -/
theorem reconciliation_no_raise_properties :
    (∀ (f : RawFrame) (c : String), c ∈ enroll_req_cols →
      (stripCols f).has c = false →
      (∀ a ∈ enroll_alt_cols c, (stripCols f).has a = false) →
      (process_enrollment_data f).has c = false) ∧
    (∀ f : RawFrame, ∀ p ∈ (process_enrollment_data f).cols,
      p.1 ∈ enroll_numeric_cols → ∀ v ∈ p.2, ∃ q, v = Cell.num q) ∧
    (∀ (e : EnrollFrame) (m : MonthlyTable) (ov : ℚ),
      m.hasSubjectStatus = true →
      ∃ q, calculate_screen_failure_rate e m ov = .ok q) := by
  refine ⟨?_, ?_, ?_⟩
  · intro f c hcreq hc halt
    unfold process_enrollment_data
    rw [coerceNumericCols_has]
    exact fillMissing_keeps_absent c (req_cols_not_alternates c hcreq) _ _
      (fun x hx => (List.mem_filter.mp hx).1) hc halt
  · intro f p hp hnum v hv
    unfold process_enrollment_data coerceNumericCols at hp
    simp only [List.mem_map] at hp
    obtain ⟨p0, _, hpe⟩ := hp
    by_cases h : p0.1 ∈ enroll_numeric_cols
    · rw [if_pos h] at hpe
      rw [← hpe] at hv
      simp only [List.mem_map] at hv
      obtain ⟨v0, _, hve⟩ := hv
      cases v0 <;> exact ⟨_, hve.symm⟩
    · rw [if_neg h] at hpe
      rw [← hpe] at hnum
      exact absurd hnum h
  · intro e m ov h
    unfold calculate_screen_failure_rate monthly_path_rate
    rw [h]
    split_ifs <;> first
      | exact ⟨_, rfl⟩
      | exact absurd rfl (by assumption)

/-- Witness for the amended C9: "Screened" stays absent when no alternate is
present, and the rate computation yields a value on an empty-but-labelled
monthly table. -/
theorem reconciliation_no_raise_properties_witness :
    (process_enrollment_data rawFrameNoCounts).has "Screened" = false ∧
    (∃ q, calculate_screen_failure_rate enrollEmptyFrame monthlyEmpty 0 =
      .ok q) := by
  constructor
  · exact reconciliation_no_raise_properties.1 rawFrameNoCounts "Screened"
      (by decide) (by with_unfolding_all rfl) (by with_unfolding_all decide)
  · exact reconciliation_no_raise_properties.2.2 enrollEmptyFrame monthlyEmpty 0 rfl

end Dashboard
